import Mathlib

/-!
Shallow embedding of the risk-scoring and reconciliation core of the
Bank-Statement-KYB-agent repository.

Monetary amounts, confidences and risk scores are Python floats in the
source; they are modelled here as exact rationals.  Python dictionaries
with optional keys are modelled as structures of `Option` fields
(`none` = key absent); `dict.get(k, d)` becomes `Option.getD`.
-/

attribute [local semireducible] Rat.add Rat.sub Rat.mul Rat.inv

namespace BankKYB

/-- A Python value that can reach `parse_amount`: either an already
numeric value (int or float) or a string. -/
inductive PyVal where
  | num : ℚ → PyVal
  | str : String → PyVal
deriving DecidableEq

/-- The currency symbols removed by the first regex of `parse_amount`
(src/utils/parsing.py line 10); the duplicated unicode escapes in the
source denote the same characters. -/
def currencySymbols : List Char := ['£', '$', '€', '¥', '₹']

/-- Characters kept by the second regex of `parse_amount`
(src/utils/parsing.py line 12): digits, the decimal point and the minus
sign.  Digits are modelled as ASCII digits. -/
def isAmountChar (ch : Char) : Bool :=
  ch.isDigit || ch = '.' || ch = '-'

/-- The two cleaning passes of `parse_amount`: remove currency symbols,
then remove every character that is not a digit, a decimal point or a
minus sign. -/
def cleanAmountStr (s : String) : List Char :=
  (s.data.filter (fun ch => !(currencySymbols.contains ch))).filter isAmountChar

/-- Numeric value of a list of ASCII digit characters read as a base-10
integer. -/
def digitsVal (ds : List Char) : ℕ :=
  ds.foldl (fun acc ch => 10 * acc + (ch.toNat - 48)) 0

/-- Whether a character list is accepted by the Python `float`
constructor, given that it only contains digits, dots and minus signs
(which is all the cleaning passes can leave): an optional leading minus
sign, then digits with at most one decimal point and at least one
digit. -/
def isValidFloatChars (cs : List Char) : Bool :=
  let body := if cs.head? = some '-' then cs.tail else cs
  body.all (fun ch => ch.isDigit || ch = '.') &&
    body.count '.' ≤ 1 && body.any Char.isDigit

/-- Models the Python `float` builtin on the cleaned character list:
returns the denoted rational when the list is a valid float literal and
`none` (a `ValueError`) otherwise. -/
def floatOfChars (cs : List Char) : Option ℚ :=
  if isValidFloatChars cs then
    let neg := cs.head? = some '-'
    let body := if neg then cs.tail else cs
    let intPart := body.takeWhile Char.isDigit
    let rest := body.drop intPart.length
    let fracPart := rest.drop 1
    let mag : ℚ := (digitsVal intPart : ℚ) +
      (digitsVal fracPart : ℚ) / ((10 : ℚ) ^ fracPart.length)
    some (if neg then -mag else mag)
  else none

/-- `parse_amount` (src/utils/parsing.py lines 4-14): numeric inputs are
returned unchanged; strings are cleaned and handed to `float`, whose
`ValueError` is modelled as the error case. -/
def parse_amount : PyVal → Except String ℚ
  | .num q => .ok q
  | .str s =>
    let cleaned := cleanAmountStr s
    match floatOfChars cleaned with
    | some q => .ok q
    | none => .error ("could not convert string to float: " ++ String.mk cleaned)

/-- Python `round` (banker's rounding, half to even) on a rational. -/
def roundHalfEven (q : ℚ) : ℤ :=
  let n := Int.floor q
  let r := q - n
  if r < 1 / 2 then n
  else if 1 / 2 < r then n + 1
  else if n % 2 = 0 then n else n + 1

/-- Python `round(x, 2)`. -/
def round2 (q : ℚ) : ℚ := (roundHalfEven (q * 100) : ℚ) / 100

/-- Fractional decimal digits of a rational in `[0, 1)`, truncated at
the given fuel; empty once the remainder is exactly zero. -/
def fracDigitChars : ℕ → ℚ → List Char
  | 0, _ => []
  | fuel + 1, r =>
    if r = 0 then []
    else
      let d := (Int.floor (r * 10)).toNat
      Char.ofNat (48 + d) :: fracDigitChars fuel (r * 10 - Int.floor (r * 10))

/-- Models Python `str` on a float for the finite decimals produced by
the core: sign, integer part, and the fractional digits (`"0"` when the
value is integral, as in `str(150.0) = "150.0"`). -/
def pyStr (q : ℚ) : String :=
  let sign := if q < 0 then "-" else ""
  let a := |q|
  let ip := Int.floor a
  let fds := fracDigitChars 17 (a - ip)
  sign ++ Nat.repr ip.toNat ++ "." ++ (if fds.isEmpty then "0" else String.mk fds)

/-- Models the Python format specifier `:.2f`. -/
def pyFixed2 (q : ℚ) : String :=
  let r := roundHalfEven (q * 100)
  let sign := if r < 0 then "-" else ""
  let a := r.natAbs
  sign ++ Nat.repr (a / 100) ++ "." ++
    (if a % 100 < 10 then "0" else "") ++ Nat.repr (a % 100)

/-- `dict.get(key, "unknown")` applied to an optional amount before
string interpolation. -/
def optAmountStr : Option ℚ → String
  | some q => pyStr q
  | none => "unknown"

/-- The value of `suspicious_areas` in a visual-tampering result: the
source distinguishes a list of areas from any other (stringly) value
via `isinstance(suspicious_areas, list)`. -/
inductive AreaField where
  | ofList : List String → AreaField
  | ofStr : String → AreaField
deriving DecidableEq

/-- Python truthiness of a `suspicious_areas` value: an empty list or
empty string is falsy. -/
def AreaField.truthy : AreaField → Bool
  | .ofList l => !l.isEmpty
  | .ofStr s => s ≠ ""

/-- Python truthiness of `dict.get(key)` for an optional `suspicious_areas`
value (`None` is falsy). -/
def areaTruthy : Option AreaField → Bool
  | some a => a.truthy
  | none => false

/-- Python truthiness of `dict.get(key)` for an optional string. -/
def truthyOptStr : Option String → Bool
  | some s => s ≠ ""
  | none => false

/-- The evidence lines added for `suspicious_areas` by the visual
tampering branch (fraud_risk_analyzer.py lines 41-48). -/
def areaLines : AreaField → List String
  | .ofList l => l.map (fun a => "Suspicious area detected: " ++ a)
  | .ofStr a => ["Suspicious area: " ++ a]

/-- The `visual_tampering` input dictionary of `assess_fraud_risk`. -/
structure VisualTampering where
  tampering_detected : Option Bool := none
  confidence : Option ℚ := none
  evidence : Option (List String) := none
  suspicious_areas : Option AreaField := none
deriving DecidableEq

/-- The `structure_analysis` input dictionary of `assess_fraud_risk`. -/
structure StructureAnalysis where
  issues_detected : Option Bool := none
  confidence : Option ℚ := none
  findings : Option (List String) := none
  reasoning : Option String := none
deriving DecidableEq

/-- The `reconciliation` dictionary built by `extract_financial_data`
(lines 67-77) and read by `assess_fraud_risk`. -/
structure Reconciliation where
  «matches» : Option Bool := none
  expected_closing_balance : Option ℚ := none
  reported_closing_balance : Option ℚ := none
  discrepancy : Option ℚ := none
  error : Option String := none
deriving DecidableEq

/-- The empty dictionary default of
`financial_data.get("reconciliation", \x7b\x7d)`. -/
def Reconciliation.empty : Reconciliation := {}

/-- The `suspicious_patterns` dictionary as read by `assess_fraud_risk`. -/
structure SuspiciousPatterns where
  suspicious_patterns_found : Option Bool := none
  suspicious_patterns : Option (List String) := none
deriving DecidableEq

/-- The empty dictionary default of
`financial_data.get("suspicious_patterns", \x7b\x7d)`. -/
def SuspiciousPatterns.empty : SuspiciousPatterns := {}

/-- The slice of the `financial_data` input dictionary that
`assess_fraud_risk` reads (keys `reconciliation`, `suspicious_patterns`
and `confidence`; any further keys are ignored by the function). -/
structure FinancialData where
  reconciliation : Option Reconciliation := none
  suspicious_patterns : Option SuspiciousPatterns := none
  confidence : Option ℚ := none
deriving DecidableEq

/-- One entry of `component_details` in the fraud-risk verdict. -/
structure ComponentDetail where
  risk_score : ℚ
  confidence : ℚ
  evidence : List String
deriving DecidableEq

/-- The `component_details` mapping, in the fixed component order of the
source (dictionary insertion order). -/
structure ComponentDetails where
  visual_tampering : ComponentDetail
  «structure» : ComponentDetail
  reconciliation : ComponentDetail
  suspicious_patterns : ComponentDetail
deriving DecidableEq

/-- The dictionary returned by `assess_fraud_risk`. -/
structure Verdict where
  risk_score : ℚ
  risk_level : String
  confidence : ℚ
  risk_factors : List String
  component_details : ComponentDetails
deriving DecidableEq

/-- Risk-level discretization (fraud_risk_analyzer.py line 81). -/
def riskLevelStr (q : ℚ) : String :=
  if q ≥ 1 / 2 then "High"
  else if q ≥ 1 / 5 then "Medium"
  else if q ≥ 1 / 20 then "Low"
  else "Minimal"

/-- `assess_fraud_risk` (src/analyzers/fraud_risk_analyzer.py lines
3-121), translated with explicit state passing for its two in-place
list mutations: the returned `VisualTampering` and `StructureAnalysis`
are the post-call contents of the caller's input dictionaries.  The
component `evidence` lists alias the caller's `evidence` and `findings`
lists (lines 22 and 39), so the `extend` on line 44 and the `append` on
line 54 also update the inputs whenever the corresponding key was
present; `financial_data` is never mutated. -/
def assess_fraud_risk_full (visual_tampering : VisualTampering)
    (structure_analysis : StructureAnalysis) (financial_data : FinancialData) :
    Verdict × VisualTampering × StructureAnalysis :=
  let reconciliation := financial_data.reconciliation.getD Reconciliation.empty
  let suspicious_patterns := financial_data.suspicious_patterns.getD SuspiciousPatterns.empty
  let confidence := financial_data.confidence.getD (1 / 2)
  let vt_conf : ℚ := visual_tampering.confidence.getD 0
  let st_conf : ℚ := structure_analysis.confidence.getD 0
  let sp_evidence : List String := suspicious_patterns.suspicious_patterns.getD []
  let vt_detected : Bool := visual_tampering.tampering_detected.getD false
  let vt_extends : Bool := vt_detected && areaTruthy visual_tampering.suspicious_areas
  let vt_evidence : List String :=
    if vt_detected then
      (visual_tampering.evidence.getD []) ++
        (if vt_extends then areaLines (visual_tampering.suspicious_areas.getD (.ofList [])) else [])
    else []
  let vt_risk : ℚ := if vt_detected then vt_conf else 0
  let visual_post : VisualTampering :=
    if vt_extends && visual_tampering.evidence.isSome then
      { visual_tampering with evidence := some vt_evidence }
    else visual_tampering
  let st_detected : Bool := structure_analysis.issues_detected.getD false
  let st_appends : Bool := st_detected && truthyOptStr structure_analysis.reasoning
  let st_evidence : List String :=
    (structure_analysis.findings.getD []) ++
      (if st_appends then ["LLM reasoning: " ++ structure_analysis.reasoning.getD ""] else [])
  let st_risk : ℚ := if st_detected then st_conf else 0
  let structure_post : StructureAnalysis :=
    if st_appends && structure_analysis.findings.isSome then
      { structure_analysis with findings := some st_evidence }
    else structure_analysis
  let rec_mismatch : Bool := !(reconciliation.«matches».getD true)
  let rec_risk : ℚ :=
    if rec_mismatch then confidence
    else if reconciliation.error.isSome then 3 / 10
    else 0
  let rec_evidence : List String :=
    if rec_mismatch then
      ["Balance discrepancy of " ++ optAmountStr reconciliation.discrepancy ++ " detected",
       "Expected: " ++ optAmountStr reconciliation.expected_closing_balance,
       "Reported: " ++ optAmountStr reconciliation.reported_closing_balance]
    else if reconciliation.error.isSome then
      ["Could not perform balance reconciliation: " ++ reconciliation.error.getD "Unknown reason"]
    else ["Balance reconciliation successful"]
  let sp_found : Bool := suspicious_patterns.suspicious_patterns_found.getD false
  let sp_risk : ℚ := if sp_found then confidence else 0
  let final_risk_score : ℚ := min 1 (vt_risk + st_risk + rec_risk + sp_risk)
  let final_confidence : ℚ := (vt_conf + st_conf + confidence + confidence) / 4
  let risk_level := riskLevelStr final_risk_score
  let rf_vt : List String :=
    if vt_risk > 0 then
      [if vt_conf > 7 / 10 then
         "HIGH CONFIDENCE visual tampering detected (" ++ pyFixed2 vt_conf ++ ")"
       else if vt_conf > 2 / 5 then
         "Medium confidence visual tampering detected (" ++ pyFixed2 vt_conf ++ ")"
       else "Possible visual tampering detected (" ++ pyFixed2 vt_conf ++ ")"]
    else []
  let rf_st : List String :=
    if st_risk > 0 then
      ["PDF structure anomalies detected (" ++ Nat.repr st_evidence.length ++ " issues)"]
    else []
  let rf_rec : List String :=
    if rec_risk > 0 ∧ reconciliation.discrepancy.isSome = true then
      ["Balance discrepancy detected: " ++ optAmountStr reconciliation.discrepancy]
    else []
  let rf_sp : List String :=
    if sp_risk > 0 then sp_evidence.map (fun p => "Suspicious pattern: " ++ p) else []
  let verdict : Verdict :=
    { risk_score := round2 final_risk_score
      risk_level := risk_level
      confidence := round2 final_confidence
      risk_factors := rf_vt ++ rf_st ++ rf_rec ++ rf_sp
      component_details :=
        { visual_tampering :=
            { risk_score := round2 vt_risk, confidence := round2 vt_conf, evidence := vt_evidence }
          «structure» :=
            { risk_score := round2 st_risk, confidence := round2 st_conf, evidence := st_evidence }
          reconciliation :=
            { risk_score := round2 rec_risk, confidence := round2 confidence, evidence := rec_evidence }
          suspicious_patterns :=
            { risk_score := round2 sp_risk, confidence := round2 confidence, evidence := sp_evidence } } }
  (verdict, visual_post, structure_post)

/-- The value returned by `assess_fraud_risk`
(src/analyzers/fraud_risk_analyzer.py). -/
def assess_fraud_risk (visual_tampering : VisualTampering)
    (structure_analysis : StructureAnalysis) (financial_data : FinancialData) : Verdict :=
  (assess_fraud_risk_full visual_tampering structure_analysis financial_data).1

/-- A transaction record as produced by the extraction boundary; only
`amount` is ever read by the core logic. -/
structure TxnRec where
  date : Option String := none
  description : Option String := none
  amount : Option PyVal := none
  running_balance : Option PyVal := none
deriving DecidableEq

/-- A balance record (`opening_balance` / `closing_balance`). -/
structure BalanceRec where
  amount : Option PyVal := none
  date : Option String := none
deriving DecidableEq

/-- Sequential parsing of `parse_amount(t.get("amount", 0))` over a
transaction list; like the Python generator expressions in
`extract_financial_data`, the first `ValueError` aborts the whole
computation. -/
def parseAmounts : List TxnRec → Except String (List ℚ)
  | [] => .ok []
  | t :: ts =>
    match parse_amount (t.amount.getD (.num 0)) with
    | .error e => .error e
    | .ok a =>
      match parseAmounts ts with
      | .error e => .error e
      | .ok rest => .ok (a :: rest)

/-- The reconciliation block of `extract_financial_data`
(src/extractors/financial_data_extractor.py lines 59-77): parse the
opening balance, the closing balance and the transaction amounts (a
missing balance dictionary or amount key defaults to `0` via `.get`),
compare the expected closing balance to the reported one with tolerance
`0.01`, and on any parse failure build the except-branch dictionary
`matches = False` with the error description. -/
def reconcile (opening_balance closing_balance : Option BalanceRec)
    (transactions : List TxnRec) : Reconciliation :=
  match parse_amount ((opening_balance.getD {}).amount.getD (.num 0)) with
  | .error e => { «matches» := some false, error := some e }
  | .ok o =>
    match parse_amount ((closing_balance.getD {}).amount.getD (.num 0)) with
    | .error e => { «matches» := some false, error := some e }
    | .ok c =>
      match parseAmounts transactions with
      | .error e => { «matches» := some false, error := some e }
      | .ok amts =>
        let expected_closing := o + amts.sum
        { «matches» := some (decide (|expected_closing - c| < 1 / 100))
          expected_closing_balance := some expected_closing
          reported_closing_balance := some c
          discrepancy := some (c - expected_closing)
          error := none }

/-- Python float modulo (sign of the divisor), as in
`parse_amount(...) % 1000`. -/
def pymod (a m : ℚ) : ℚ := a - m * ⌊a / m⌋

/-- The `suspicious_patterns` dictionary built at the end of
`extract_financial_data` (lines 101-104), with concrete values. -/
structure SuspiciousPatternsOut where
  suspicious_patterns_found : Bool
  suspicious_patterns : List String
deriving DecidableEq

/-- The suspicious-pattern checks of `extract_financial_data` (lines
79-104) on the parsed opening balance, closing balance and transaction
amounts; `transaction_net_change` is the sum of the amounts (line 62).
The four checks run in the fixed source order and every firing check
appends its flag string. -/
def detect_patterns (opening_balance closing_balance : ℚ) (amounts : List ℚ) :
    SuspiciousPatternsOut :=
  let transaction_net_change := amounts.sum
  let ps0 : List String := []
  let ps1 :=
    if |opening_balance| < 1 / 100 ∧ |closing_balance| < 1 / 100 then
      ps0 ++ ["Both opening and closing balances are zero (0.00)"]
    else ps0
  let ps2 :=
    if amounts.length = 0 ∧ |closing_balance - opening_balance| > 1 / 100 then
      ps1 ++ ["Balance changed with no transactions recorded"]
    else ps1
  let ps3 :=
    if amounts.length > 0 ∧ |closing_balance - opening_balance| < 1 / 100 ∧
        |transaction_net_change| > 1 / 100 then
      ps2 ++ ["Transactions present but opening and closing balances are identical"]
    else ps2
  let round_transactions :=
    amounts.filter (fun a => decide (|pymod a 1000| < 1 / 100 ∧ 1000 ≤ |a|))
  let ps4 :=
    if round_transactions.length > 2 then
      ps3 ++ ["Multiple large round-number transactions: " ++
        Nat.repr round_transactions.length ++ " found"]
    else ps3
  { suspicious_patterns_found := decide (ps4.length > 0), suspicious_patterns := ps4 }

/-- A Python exception escaping `extract_financial_data`. -/
inductive PyErr where
  | valueError : String → PyErr
  | nameError : String → PyErr
deriving DecidableEq

/-- Reading a local variable that is only assigned inside the try block:
if the assignment never ran, the read raises `NameError`. -/
def getVar (v : Option ℚ) (nm : String) : Except PyErr ℚ :=
  match v with
  | some x => .ok x
  | none => .error (.nameError ("name " ++ nm ++ " is not defined"))

/-- The structured JSON returned by the extraction model, as consumed by
the processing part of `extract_financial_data`. -/
structure ExtractedData where
  opening_balance : Option BalanceRec := none
  closing_balance : Option BalanceRec := none
  transactions : List TxnRec := []
  confidence : Option ℚ := none
deriving DecidableEq

/-- The `summary_data` dictionary returned by `extract_financial_data`
on its normal path. -/
structure Summary where
  opening_balance : BalanceRec
  closing_balance : BalanceRec
  total_deposits : ℚ
  total_withdrawals : ℚ
  transaction_count : ℕ
  confidence : ℚ
  reconciliation : Reconciliation
  suspicious_patterns : SuspiciousPatternsOut
deriving DecidableEq

/-- Result of `extract_financial_data` when no exception escapes:
either the early-return failure dictionary of line 36 (when the
perception service returned nothing) or the summary. -/
inductive ProcResult where
  | failed : ProcResult
  | success : Summary → ProcResult
deriving DecidableEq

/-- The data-processing part of `extract_financial_data`
(src/extractors/financial_data_extractor.py lines 34-106), from the
extraction result (`none` models a falsy `detailed_financial_data`) to
either its return value or the Python exception that escapes the call:
a transaction amount that fails to parse raises `ValueError` from the
totals computation on lines 42-45, before the try block; a balance that
fails to parse is caught on line 73, which leaves the locals
`opening_balance` / `closing_balance` / `transaction_net_change`
unassigned, so the suspicious-pattern checks of lines 83-91 raise
`NameError` (short-circuit evaluation order preserved). -/
def extract_financial_data (detailed_financial_data : Option ExtractedData) :
    Except PyErr ProcResult :=
  match detailed_financial_data with
  | none => .ok .failed
  | some d =>
    match parseAmounts d.transactions with
    | .error e => .error (.valueError e)
    | .ok amts =>
      let total_deposits := (amts.filter (fun a => decide (a > 0))).sum
      let total_withdrawals := ((amts.filter (fun a => decide (a < 0))).map (fun a => |a|)).sum
      let parsedState :=
        match parse_amount ((d.opening_balance.getD {}).amount.getD (.num 0)) with
        | .error e =>
          (({ «matches» := some false, error := some e } : Reconciliation),
           (none : Option ℚ), (none : Option ℚ), (none : Option ℚ))
        | .ok o =>
          match parse_amount ((d.closing_balance.getD {}).amount.getD (.num 0)) with
          | .error e =>
            ({ «matches» := some false, error := some e }, some o, none, none)
          | .ok c =>
            let net := amts.sum
            ({ «matches» := some (decide (|o + net - c| < 1 / 100))
               expected_closing_balance := some (o + net)
               reported_closing_balance := some c
               discrepancy := some (c - (o + net))
               error := none }, some o, some c, some net)
      let reconciliation := parsedState.1
      let opening_bound := parsedState.2.1
      let closing_bound := parsedState.2.2.1
      let net_bound := parsedState.2.2.2
      do
        let ob ← getVar opening_bound ("opening_balance")
        let fired1 ←
          if |ob| < 1 / 100 then do
            let cb ← getVar closing_bound ("closing_balance")
            pure (decide (|cb| < 1 / 100))
          else pure false
        let ps1 : List String :=
          if fired1 then ["Both opening and closing balances are zero (0.00)"] else []
        let fired2 ←
          if d.transactions.length = 0 then do
            let cb ← getVar closing_bound ("closing_balance")
            pure (decide (|cb - ob| > 1 / 100))
          else pure false
        let ps2 := ps1 ++
          (if fired2 then ["Balance changed with no transactions recorded"] else [])
        let fired3 ←
          if d.transactions.length > 0 then do
            let cb ← getVar closing_bound ("closing_balance")
            if |cb - ob| < 1 / 100 then do
              let net ← getVar net_bound ("transaction_net_change")
              pure (decide (|net| > 1 / 100))
            else pure false
          else pure false
        let ps3 := ps2 ++
          (if fired3 then
            ["Transactions present but opening and closing balances are identical"]
          else [])
        let rn := (amts.filter (fun a => decide (|pymod a 1000| < 1 / 100 ∧ 1000 ≤ |a|))).length
        let ps4 := ps3 ++
          (if rn > 2 then
            ["Multiple large round-number transactions: " ++ Nat.repr rn ++ " found"]
          else [])
        pure (.success
          { opening_balance := d.opening_balance.getD {}
            closing_balance := d.closing_balance.getD {}
            total_deposits := total_deposits
            total_withdrawals := total_withdrawals
            transaction_count := d.transactions.length
            confidence := d.confidence.getD (1 / 2)
            reconciliation := reconciliation
            suspicious_patterns :=
              { suspicious_patterns_found := decide (ps4.length > 0)
                suspicious_patterns := ps4 } })

/-- The second `assess_fraud_risk` definition present in the codebase
(src/main.py lines 419-537), translated independently of the one in
src/analyzers/fraud_risk_analyzer.py; the two source bodies coincide
line for line (main.py is never routed through the analyzers module for
this function: its module-level definition on line 419 is the one its
pipeline calls on line 605). -/
def main_assess_fraud_risk_full (visual_tampering : VisualTampering)
    (structure_analysis : StructureAnalysis) (financial_data : FinancialData) :
    Verdict × VisualTampering × StructureAnalysis :=
  let reconciliation := financial_data.reconciliation.getD Reconciliation.empty
  let suspicious_patterns := financial_data.suspicious_patterns.getD SuspiciousPatterns.empty
  let confidence := financial_data.confidence.getD (1 / 2)
  let vt_conf : ℚ := visual_tampering.confidence.getD 0
  let st_conf : ℚ := structure_analysis.confidence.getD 0
  let sp_evidence : List String := suspicious_patterns.suspicious_patterns.getD []
  let vt_detected : Bool := visual_tampering.tampering_detected.getD false
  let vt_extends : Bool := vt_detected && areaTruthy visual_tampering.suspicious_areas
  let vt_evidence : List String :=
    if vt_detected then
      (visual_tampering.evidence.getD []) ++
        (if vt_extends then areaLines (visual_tampering.suspicious_areas.getD (.ofList [])) else [])
    else []
  let vt_risk : ℚ := if vt_detected then vt_conf else 0
  let visual_post : VisualTampering :=
    if vt_extends && visual_tampering.evidence.isSome then
      { visual_tampering with evidence := some vt_evidence }
    else visual_tampering
  let st_detected : Bool := structure_analysis.issues_detected.getD false
  let st_appends : Bool := st_detected && truthyOptStr structure_analysis.reasoning
  let st_evidence : List String :=
    (structure_analysis.findings.getD []) ++
      (if st_appends then ["LLM reasoning: " ++ structure_analysis.reasoning.getD ""] else [])
  let st_risk : ℚ := if st_detected then st_conf else 0
  let structure_post : StructureAnalysis :=
    if st_appends && structure_analysis.findings.isSome then
      { structure_analysis with findings := some st_evidence }
    else structure_analysis
  let rec_mismatch : Bool := !(reconciliation.«matches».getD true)
  let rec_risk : ℚ :=
    if rec_mismatch then confidence
    else if reconciliation.error.isSome then 3 / 10
    else 0
  let rec_evidence : List String :=
    if rec_mismatch then
      ["Balance discrepancy of " ++ optAmountStr reconciliation.discrepancy ++ " detected",
       "Expected: " ++ optAmountStr reconciliation.expected_closing_balance,
       "Reported: " ++ optAmountStr reconciliation.reported_closing_balance]
    else if reconciliation.error.isSome then
      ["Could not perform balance reconciliation: " ++ reconciliation.error.getD "Unknown reason"]
    else ["Balance reconciliation successful"]
  let sp_found : Bool := suspicious_patterns.suspicious_patterns_found.getD false
  let sp_risk : ℚ := if sp_found then confidence else 0
  let final_risk_score : ℚ := min 1 (vt_risk + st_risk + rec_risk + sp_risk)
  let final_confidence : ℚ := (vt_conf + st_conf + confidence + confidence) / 4
  let risk_level := riskLevelStr final_risk_score
  let rf_vt : List String :=
    if vt_risk > 0 then
      [if vt_conf > 7 / 10 then
         "HIGH CONFIDENCE visual tampering detected (" ++ pyFixed2 vt_conf ++ ")"
       else if vt_conf > 2 / 5 then
         "Medium confidence visual tampering detected (" ++ pyFixed2 vt_conf ++ ")"
       else "Possible visual tampering detected (" ++ pyFixed2 vt_conf ++ ")"]
    else []
  let rf_st : List String :=
    if st_risk > 0 then
      ["PDF structure anomalies detected (" ++ Nat.repr st_evidence.length ++ " issues)"]
    else []
  let rf_rec : List String :=
    if rec_risk > 0 ∧ reconciliation.discrepancy.isSome = true then
      ["Balance discrepancy detected: " ++ optAmountStr reconciliation.discrepancy]
    else []
  let rf_sp : List String :=
    if sp_risk > 0 then sp_evidence.map (fun p => "Suspicious pattern: " ++ p) else []
  let verdict : Verdict :=
    { risk_score := round2 final_risk_score
      risk_level := risk_level
      confidence := round2 final_confidence
      risk_factors := rf_vt ++ rf_st ++ rf_rec ++ rf_sp
      component_details :=
        { visual_tampering :=
            { risk_score := round2 vt_risk, confidence := round2 vt_conf, evidence := vt_evidence }
          «structure» :=
            { risk_score := round2 st_risk, confidence := round2 st_conf, evidence := st_evidence }
          reconciliation :=
            { risk_score := round2 rec_risk, confidence := round2 confidence, evidence := rec_evidence }
          suspicious_patterns :=
            { risk_score := round2 sp_risk, confidence := round2 confidence, evidence := sp_evidence } } }
  (verdict, visual_post, structure_post)

/-- The value returned by the `assess_fraud_risk` defined in
src/main.py. -/
def main_assess_fraud_risk (visual_tampering : VisualTampering)
    (structure_analysis : StructureAnalysis) (financial_data : FinancialData) : Verdict :=
  (main_assess_fraud_risk_full visual_tampering structure_analysis financial_data).1

/-- Component risk of the visual-tampering signal (fraud_risk_analyzer.py
lines 15 and 36-38). -/
def visualRisk (v : VisualTampering) : ℚ :=
  if v.tampering_detected.getD false then v.confidence.getD 0 else 0

/-- Component risk of the structure signal (lines 20 and 50-52). -/
def structureRisk (s : StructureAnalysis) : ℚ :=
  if s.issues_detected.getD false then s.confidence.getD 0 else 0

/-- Component risk of the reconciliation signal (lines 25 and 56-70). -/
def reconciliationRisk (f : FinancialData) : ℚ :=
  let reconciliation := f.reconciliation.getD Reconciliation.empty
  if !(reconciliation.«matches».getD true) then f.confidence.getD (1 / 2)
  else if reconciliation.error.isSome then 3 / 10
  else 0

/-- Component risk of the suspicious-patterns signal (lines 30 and
72-74). -/
def patternsRisk (f : FinancialData) : ℚ :=
  if (f.suspicious_patterns.getD SuspiciousPatterns.empty).suspicious_patterns_found.getD false
  then f.confidence.getD (1 / 2) else 0

/-- The fused, saturated risk score (line 77), before rounding. -/
def fusedScore (v : VisualTampering) (s : StructureAnalysis) (f : FinancialData) : ℚ :=
  min 1 (visualRisk v + structureRisk s + reconciliationRisk f + patternsRisk f)

/-- The unweighted mean of the four component confidences (line 78):
the reconciliation and suspicious-patterns components both carry the
financial extraction confidence. -/
def meanConfidence (v : VisualTampering) (s : StructureAnalysis) (f : FinancialData) : ℚ :=
  (v.confidence.getD 0 + s.confidence.getD 0 +
    f.confidence.getD (1 / 2) + f.confidence.getD (1 / 2)) / 4

/-- Decidable equality of `Except` results, for evaluating concrete
runs of the fallible functions. -/
instance {e a : Type} [DecidableEq e] [DecidableEq a] : DecidableEq (Except e a) := fun x y =>
  match x, y with
  | .ok x1, .ok y1 => decidable_of_iff (x1 = y1) (by simp)
  | .error x1, .error y1 => decidable_of_iff (x1 = y1) (by simp)
  | .ok _, .error _ => .isFalse (by simp)
  | .error _, .ok _ => .isFalse (by simp)

/-- Cleaning is idempotent: every character surviving the two filters
survives them again. -/
theorem cleanAmountStr_idem (s : String) :
    cleanAmountStr (String.mk (cleanAmountStr s)) = cleanAmountStr s := by
  have h1 : ∀ c ∈ cleanAmountStr s, (!(currencySymbols.contains c)) = true := by
    intro c hc
    exact (List.mem_filter.mp (List.mem_filter.mp hc).1).2
  have h2 : ∀ c ∈ (cleanAmountStr s).filter (fun ch => !(currencySymbols.contains ch)),
      isAmountChar c = true := by
    intro c hc
    exact (List.mem_filter.mp (List.mem_filter.mp hc).1).2
  show ((cleanAmountStr s).filter _).filter _ = cleanAmountStr s
  rw [List.filter_eq_self.mpr h2, List.filter_eq_self.mpr h1]

/-- C8: `parse_amount` returns any numeric input unchanged as a float;
for every string input it strips recognized currency symbols and every
character that is not a digit, decimal point, or minus sign and parses
the remainder as a float (so parsing a string equals parsing its cleaned
residue, `"$1,234.56"` yields `1234.56` and `"£-987.00"` yields
`-987.0`); and it fails with a numeric-format error whenever the cleaned
string is empty or not a valid number (multiple decimal points, bare
minus sign, non-numeric residue). -/
theorem claim_C8_parse_amount :
    (∀ q : ℚ, parse_amount (.num q) = .ok q) ∧
    (∀ s : String, parse_amount (.str s) = parse_amount (.str (String.mk (cleanAmountStr s)))) ∧
    parse_amount (.str ("$1,234.56")) = .ok (123456 / 100) ∧
    parse_amount (.str ("£-987.00")) = .ok (-987) ∧
    parse_amount (.str ("1000")) = .ok 1000 ∧
    (∃ e, parse_amount (.str ("")) = .error e) ∧
    (∃ e, parse_amount (.str ("1.2.3")) = .error e) ∧
    (∃ e, parse_amount (.str ("-")) = .error e) ∧
    (∃ e, parse_amount (.str ("abc")) = .error e) := by
  refine ⟨fun q => rfl, fun s => ?_, by decide, by decide, by decide,
    ⟨_, rfl⟩, ⟨_, rfl⟩, ⟨_, rfl⟩, ⟨_, rfl⟩⟩
  show (match floatOfChars (cleanAmountStr s) with
    | some q => Except.ok q
    | none => Except.error ("could not convert string to float: " ++
        String.mk (cleanAmountStr s))) = _
  rw [show parse_amount (.str (String.mk (cleanAmountStr s))) =
      (match floatOfChars (cleanAmountStr (String.mk (cleanAmountStr s))) with
        | some q => Except.ok q
        | none => Except.error ("could not convert string to float: " ++
            String.mk (cleanAmountStr (String.mk (cleanAmountStr s))))) from rfl,
    cleanAmountStr_idem]

/-- Parsing a transaction list whose amounts are already numeric always
succeeds with those amounts. -/
theorem parseAmounts_nums (amts : List ℚ) :
    parseAmounts (amts.map (fun a => ({ amount := some (.num a) } : TxnRec))) = .ok amts := by
  induction amts with
  | nil => rfl
  | cons a as ih => simp [parseAmounts, parse_amount, ih]

/-- C2: for every opening balance, closing balance, and transaction list
whose amounts all parse, reconciliation computes
`expected_closing = opening + (sum of all parsed transaction amounts)`,
sets `matches` to true iff `|expected_closing - closing| < 0.01`, and
sets `discrepancy = closing - expected_closing`; in particular, for any
transaction sequence summing to `net`, `closing = opening + net` yields
`matches = true` with discrepancy exactly `0`, and
`closing = opening + net + 50` yields `matches = false` with discrepancy
exactly `50`. -/
theorem claim_C2_reconciliation (ob cb : Option BalanceRec) (ts : List TxnRec) (o c : ℚ)
    (amts : List ℚ)
    (ho : parse_amount ((ob.getD {}).amount.getD (.num 0)) = .ok o)
    (hc : parse_amount ((cb.getD {}).amount.getD (.num 0)) = .ok c)
    (hts : parseAmounts ts = .ok amts) :
    (reconcile ob cb ts).expected_closing_balance = some (o + amts.sum) ∧
    ((reconcile ob cb ts).«matches» = some true ↔ |o + amts.sum - c| < 1 / 100) ∧
    (reconcile ob cb ts).discrepancy = some (c - (o + amts.sum)) ∧
    (∀ (op : ℚ) (net : List ℚ),
      (reconcile (some { amount := some (.num op) })
        (some { amount := some (.num (op + net.sum)) })
        (net.map (fun a => { amount := some (.num a) }))).«matches» = some true ∧
      (reconcile (some { amount := some (.num op) })
        (some { amount := some (.num (op + net.sum)) })
        (net.map (fun a => { amount := some (.num a) }))).discrepancy = some 0) ∧
    (∀ (op : ℚ) (net : List ℚ),
      (reconcile (some { amount := some (.num op) })
        (some { amount := some (.num (op + net.sum + 50)) })
        (net.map (fun a => { amount := some (.num a) }))).«matches» = some false ∧
      (reconcile (some { amount := some (.num op) })
        (some { amount := some (.num (op + net.sum + 50)) })
        (net.map (fun a => { amount := some (.num a) }))).discrepancy = some 50) := by
  refine ⟨?_, ?_, ?_, ?_, ?_⟩
  · simp [reconcile, ho, hc, hts]
  · simp [reconcile, ho, hc, hts, decide_eq_true_iff]
  · simp [reconcile, ho, hc, hts]
  · intro op net
    constructor
    · simp [reconcile, parse_amount, parseAmounts_nums]
    · simp [reconcile, parse_amount, parseAmounts_nums]
  · intro op net
    constructor
    · simp [reconcile, parse_amount, parseAmounts_nums]
      norm_num
    · simp [reconcile, parse_amount, parseAmounts_nums]

/-- Witness for C2 at a concrete statement: opening 100 (as the string
`"$100.00"`), transactions +50 and -20, reported closing 130. -/
theorem claim_C2_reconciliation_witness :
    (reconcile (some { amount := some (.str ("$100.00")) }) (some { amount := some (.num 130) })
      [{ amount := some (.num 50) }, { amount := some (.num (-20)) }]).«matches» = some true := by
  have h := claim_C2_reconciliation (some { amount := some (.str ("$100.00")) })
    (some { amount := some (.num 130) })
    [{ amount := some (.num 50) }, { amount := some (.num (-20)) }] 100 130 [50, -20]
    (by decide) rfl rfl
  exact h.2.1.mpr (by norm_num)

/-- An extraction result whose opening balance does not parse. -/
def openingUnparseable : ExtractedData :=
  { opening_balance := some { amount := some (.str ("N/A")) }
    closing_balance := some { amount := some (.num 100) }
    transactions := []
    confidence := some (9 / 10) }

/-- An extraction result whose closing balance does not parse. -/
def closingUnparseable : ExtractedData :=
  { opening_balance := some { amount := some (.num 0) }
    closing_balance := some { amount := some (.str ("N/A")) }
    transactions := []
    confidence := some (9 / 10) }

/-- An extraction result with an unparseable transaction amount. -/
def txnUnparseable : ExtractedData :=
  { opening_balance := some { amount := some (.num 0) }
    closing_balance := some { amount := some (.num 100) }
    transactions := [{ amount := some (.str ("??")) }]
    confidence := some (9 / 10) }

/-- C4 (code bug): the claim says a parse failure during reconciliation
yields a returned failed-reconciliation result instead of an exception,
and the except branch on lines 73-77 indeed builds that result; but an
unparseable opening or closing balance leaves the try-block locals
unassigned, so the suspicious-pattern block then raises `NameError` out
of `extract_financial_data`, and an unparseable transaction amount
raises `ValueError` from the totals computation on line 42 before the
try block is even reached. -/
theorem claim_C4_parse_failure_raises :
    extract_financial_data (some openingUnparseable) =
      .error (.nameError ("name opening_balance is not defined")) ∧
    extract_financial_data (some closingUnparseable) =
      .error (.nameError ("name closing_balance is not defined")) ∧
    extract_financial_data (some txnUnparseable) =
      .error (.valueError ("could not convert string to float: ")) :=
  ⟨by rfl, by rfl, by rfl⟩

/-- C7: for every opening balance, closing balance, and transaction
list, the suspicious-pattern detector evaluates its four checks in the
fixed order (zero-balance, no-transactions-but-balance-changed,
transactions-but-no-balance-change, round-number cluster), appends every
check that fires without short-circuiting, sets the found flag to true
iff at least one check fired, and the round-number check fires iff
strictly more than 2 transactions have absolute amount at least 1000 and
value modulo 1000 within 0.01 of zero, reporting that count. -/
theorem claim_C7_pattern_detector (ob cb : ℚ) (amounts : List ℚ) :
    (detect_patterns ob cb amounts).suspicious_patterns =
      (if |ob| < 1 / 100 ∧ |cb| < 1 / 100 then
        ["Both opening and closing balances are zero (0.00)"] else []) ++
      (if amounts.length = 0 ∧ |cb - ob| > 1 / 100 then
        ["Balance changed with no transactions recorded"] else []) ++
      (if amounts.length > 0 ∧ |cb - ob| < 1 / 100 ∧ |amounts.sum| > 1 / 100 then
        ["Transactions present but opening and closing balances are identical"] else []) ++
      (if 2 < amounts.countP (fun a => decide (1000 ≤ |a| ∧ |pymod a 1000| < 1 / 100)) then
        ["Multiple large round-number transactions: " ++
          Nat.repr (amounts.countP (fun a => decide (1000 ≤ |a| ∧ |pymod a 1000| < 1 / 100))) ++
          " found"]
      else []) ∧
    ((detect_patterns ob cb amounts).suspicious_patterns_found = true ↔
      ((|ob| < 1 / 100 ∧ |cb| < 1 / 100) ∨
       (amounts.length = 0 ∧ |cb - ob| > 1 / 100) ∨
       (amounts.length > 0 ∧ |cb - ob| < 1 / 100 ∧ |amounts.sum| > 1 / 100) ∨
       2 < amounts.countP (fun a => decide (1000 ≤ |a| ∧ |pymod a 1000| < 1 / 100)))) := by
  have hfun : (fun a : ℚ => decide (1000 ≤ |a| ∧ |pymod a 1000| < 1 / 100)) =
      (fun a : ℚ => decide (|pymod a 1000| < 1 / 100 ∧ 1000 ≤ |a|)) := by
    funext a
    exact decide_eq_decide.mpr and_comm
  simp only [detect_patterns]
  rw [List.countP_eq_length_filter, hfun]
  split_ifs <;> simp_all

/-- A visual-tampering result with all signals clean. -/
def vClean : VisualTampering := { tampering_detected := some false, confidence := some 0 }

/-- A structure-analysis result with all signals clean. -/
def sClean : StructureAnalysis :=
  { issues_detected := some false, confidence := some 0, findings := some [] }

/-- Financial data whose reconciliation mismatched with discrepancy
150.00 at extraction confidence 0.6, and no suspicious patterns. -/
def fDiscrepancy150 : FinancialData :=
  { reconciliation := some
      { «matches» := some false
        expected_closing_balance := some 1000
        reported_closing_balance := some 1150
        discrepancy := some 150
        error := none }
    suspicious_patterns := some
      { suspicious_patterns_found := some false, suspicious_patterns := some [] }
    confidence := some (3 / 5) }

/-- C5 counterexample: on the scenario of the claim (reconciliation
mismatch with discrepancy 150.00 and confidence 0.6, all other signals
clean) the risk score 0.6 meets the inclusive 0.5 threshold, so the
code returns risk level High, not Medium as the claim states. -/
theorem claim_C5_counterexample :
    (assess_fraud_risk vClean sClean fDiscrepancy150).risk_score = 3 / 5 ∧
    (assess_fraud_risk vClean sClean fDiscrepancy150).risk_level = "High" ∧
    (assess_fraud_risk vClean sClean fDiscrepancy150).risk_level ≠ "Medium" := by
  decide

/-- C5 amended: on the scenario input, `assess_fraud_risk` returns
risk score 0.6, risk level High (since 0.6 meets the inclusive 0.5
High threshold), and exactly one risk factor, the entry
`Balance discrepancy detected: 150.0`. -/
theorem claim_C5_discrepancy_scenario :
    (assess_fraud_risk vClean sClean fDiscrepancy150).risk_score = 3 / 5 ∧
    (assess_fraud_risk vClean sClean fDiscrepancy150).risk_level = "High" ∧
    (assess_fraud_risk vClean sClean fDiscrepancy150).risk_factors =
      [("Balance discrepancy detected: 150.0")] := by
  decide

/-- Financial data whose reconciliation result carries both
`matches = False` and an error description, exactly as built by the
except branch of `extract_financial_data` (lines 74-77), with
extraction confidence 0.9. -/
def fErrorRecon : FinancialData :=
  { reconciliation := some
      { «matches» := some false
        error := some ("could not convert string to float: ") }
    confidence := some (9 / 10) }

/-- C3 counterexample: on the error-path reconciliation result that the
extractor actually produces (`matches = False` plus `error`), the
`not matches` branch fires first, so the reconciliation component risk
is the extraction confidence 0.9, not the fixed 0.3 the claim states
for every result carrying an error. -/
theorem claim_C3_counterexample :
    (fErrorRecon.reconciliation.getD Reconciliation.empty).error.isSome = true ∧
    (assess_fraud_risk {} {} fErrorRecon).component_details.reconciliation.risk_score = 9 / 10 ∧
    (assess_fraud_risk {} {} fErrorRecon).component_details.reconciliation.risk_score ≠ 3 / 10 := by
  decide

/-- C3 amended: the mismatch branch has priority. The reconciliation
component risk is the financial extraction confidence whenever
`matches` is false (even when an error is also present), the fixed 0.3
only when an error is present while `matches` is absent or true, and 0
with the evidence note `Balance reconciliation successful` when the
reconciliation matches without error. -/
theorem claim_C3_reconciliation_component (v : VisualTampering) (s : StructureAnalysis)
    (f : FinancialData) :
    (assess_fraud_risk v s f).component_details.reconciliation.risk_score =
      round2 (if (f.reconciliation.getD Reconciliation.empty).«matches».getD true = false then
          f.confidence.getD (1 / 2)
        else if (f.reconciliation.getD Reconciliation.empty).error.isSome then 3 / 10
        else 0) ∧
    (assess_fraud_risk v s f).component_details.reconciliation.evidence =
      (if (f.reconciliation.getD Reconciliation.empty).«matches».getD true = false then
        ["Balance discrepancy of " ++
           optAmountStr (f.reconciliation.getD Reconciliation.empty).discrepancy ++ " detected",
         "Expected: " ++
           optAmountStr (f.reconciliation.getD Reconciliation.empty).expected_closing_balance,
         "Reported: " ++
           optAmountStr (f.reconciliation.getD Reconciliation.empty).reported_closing_balance]
      else if (f.reconciliation.getD Reconciliation.empty).error.isSome then
        ["Could not perform balance reconciliation: " ++
          (f.reconciliation.getD Reconciliation.empty).error.getD "Unknown reason"]
      else ["Balance reconciliation successful"]) := by
  cases hm : (f.reconciliation.getD Reconciliation.empty).«matches».getD true <;>
    cases he : (f.reconciliation.getD Reconciliation.empty).error <;>
      simp [assess_fraud_risk, assess_fraud_risk_full, hm, he]

/-- C10: when `financial_data` has no `reconciliation` entry at all,
`financial_data.get("reconciliation", \x7b\x7d)` yields the empty
dictionary, whose `matches` lookup defaults to `True` and which has no
`error` key, so the component takes the success branch: risk 0 and the
single evidence entry `Balance reconciliation successful`. -/
theorem claim_C10_missing_reconciliation (v : VisualTampering) (s : StructureAnalysis)
    (f : FinancialData) (h : f.reconciliation = none) :
    (assess_fraud_risk v s f).component_details.reconciliation.risk_score = 0 ∧
    (assess_fraud_risk v s f).component_details.reconciliation.evidence =
      [("Balance reconciliation successful")] := by
  constructor
  · show round2 _ = 0
    simp [assess_fraud_risk, assess_fraud_risk_full, h, Reconciliation.empty]
    norm_num [round2, roundHalfEven]
  · simp [assess_fraud_risk, assess_fraud_risk_full, h, Reconciliation.empty]

/-- Witness for C10 at the concrete extraction-failure style input with
no reconciliation entry. -/
theorem claim_C10_missing_reconciliation_witness :
    (assess_fraud_risk {} {} { confidence := some 0 }).component_details.reconciliation.risk_score
      = 0 ∧
    (assess_fraud_risk {} {} { confidence := some 0 }).component_details.reconciliation.evidence
      = [("Balance reconciliation successful")] :=
  claim_C10_missing_reconciliation {} {} { confidence := some 0 } rfl

/-- A structure-analysis result with issues detected, a findings list
present in the caller's dictionary, and a non-empty reasoning string. -/
def sIssues : StructureAnalysis :=
  { issues_detected := some true
    confidence := some (1 / 2)
    findings := some []
    reasoning := some ("layered content streams") }

/-- C6 counterexample: `assess_fraud_risk` is not side-effect-free.  On
an input with structure issues detected and a reasoning string, the
component evidence list aliases the caller's findings list and the
appended `LLM reasoning:` line mutates it, so the call leaves its input
changed, and invoking the function again on the very same (now mutated)
input structures returns a different output (the findings count in the
risk factors grows). -/
theorem claim_C6_counterexample :
    (assess_fraud_risk_full {} sIssues {}).2.2 ≠ sIssues ∧
    assess_fraud_risk {} ((assess_fraud_risk_full {} sIssues {}).2.2) {} ≠
      assess_fraud_risk {} sIssues {} := by
  decide

/-- C6 amended: `assess_fraud_risk` computes its verdict
deterministically from its input values, but it mutates its inputs in
place: when structure issues are detected and a non-empty reasoning
string is present, the caller's findings list (if the key is present)
gains the `LLM reasoning:` line; when tampering is detected with truthy
suspicious areas, the caller's evidence list (if the key is present) is
extended with the suspicious-area lines; all other fields (and
`financial_data`) are left unchanged.  Re-invocation on the same mutated
structures can therefore differ from the first call. -/
theorem claim_C6_input_mutation (v : VisualTampering) (s : StructureAnalysis)
    (f : FinancialData) :
    ((assess_fraud_risk_full v s f).2.2).findings =
      (if (s.issues_detected.getD false && truthyOptStr s.reasoning) = true then
        s.findings.map (fun fs => fs ++ ["LLM reasoning: " ++ s.reasoning.getD ""])
      else s.findings) ∧
    ((assess_fraud_risk_full v s f).2.2).issues_detected = s.issues_detected ∧
    ((assess_fraud_risk_full v s f).2.2).confidence = s.confidence ∧
    ((assess_fraud_risk_full v s f).2.2).reasoning = s.reasoning ∧
    ((assess_fraud_risk_full v s f).2.1).evidence =
      (if (v.tampering_detected.getD false && areaTruthy v.suspicious_areas) = true then
        v.evidence.map (fun ev => ev ++ areaLines (v.suspicious_areas.getD (.ofList [])))
      else v.evidence) ∧
    ((assess_fraud_risk_full v s f).2.1).tampering_detected = v.tampering_detected ∧
    ((assess_fraud_risk_full v s f).2.1).confidence = v.confidence ∧
    ((assess_fraud_risk_full v s f).2.1).suspicious_areas = v.suspicious_areas := by
  cases hs : s.findings <;>
    cases hsd : s.issues_detected.getD false <;>
      cases hsr : truthyOptStr s.reasoning <;>
        cases hv : v.evidence <;>
          cases hvd : v.tampering_detected.getD false <;>
            cases hva : areaTruthy v.suspicious_areas <;>
              simp [assess_fraud_risk_full, hs, hsd, hsr, hv, hvd, hva]

/-- C9 counterexample: the claim asserts the two `assess_fraud_risk`
definitions in the codebase are not extensionally equal (one allegedly
using 0.7/0.4/0.15 bounds and per-finding-count structure scoring), but
the definition in src/main.py and the one in
src/analyzers/fraud_risk_analyzer.py are the same function. -/
theorem claim_C9_counterexample : main_assess_fraud_risk = assess_fraud_risk := rfl

/-- C9 amended: the codebase contains two textually duplicated
`assess_fraud_risk` definitions (src/main.py lines 419-537 and
src/analyzers/fraud_risk_analyzer.py lines 3-121); they agree on every
input, both using the 0.5/0.2/0.05 thresholds with confidence-based
component scoring; no variant with 0.7/0.4/0.15 bounds or
per-finding-count structure scoring exists in the source (0.7 and 0.4
appear only as the confidence tiers of the visual-tampering risk-factor
message, identically in both copies). -/
theorem claim_C9_duplicate_engines (v : VisualTampering) (s : StructureAnalysis)
    (f : FinancialData) :
    main_assess_fraud_risk v s f = assess_fraud_risk v s f ∧
    (main_assess_fraud_risk v s f).risk_level = riskLevelStr (fusedScore v s f) := ⟨rfl, rfl⟩

/-- A visual-tampering result contributing component risk 0.3. -/
def vBoundary : VisualTampering :=
  { tampering_detected := some true, confidence := some (3 / 10) }

/-- A structure-analysis result contributing component risk 0.3. -/
def sBoundary : StructureAnalysis :=
  { issues_detected := some true, confidence := some (3 / 10) }

/-- Financial data making both the reconciliation and the
suspicious-patterns components contribute risk 0.3 each. -/
def fBoundary : FinancialData :=
  { reconciliation := some { «matches» := some false, discrepancy := some 100 }
    suspicious_patterns := some
      { suspicious_patterns_found := some true, suspicious_patterns := some [("p")] }
    confidence := some (3 / 10) }

/-- C1: for every input, `assess_fraud_risk` returns
`risk_score = min(1.0, sum of the four component risk scores)` and
`confidence` = the unweighted arithmetic mean of the four component
confidences, both rounded to 2 decimal places, and the risk level is
High iff the fused score is at least 0.5, Medium iff it is in
[0.2, 0.5), Low iff it is in [0.05, 0.2), and Minimal otherwise; in
particular four components each reporting risk 0.3 fuse to risk score
min(1.0, 1.2) = 1.0 with level High. -/
theorem claim_C1_risk_fusion (v : VisualTampering) (s : StructureAnalysis)
    (f : FinancialData) :
    (assess_fraud_risk v s f).risk_score = round2 (fusedScore v s f) ∧
    (assess_fraud_risk v s f).confidence = round2 (meanConfidence v s f) ∧
    ((assess_fraud_risk v s f).risk_level = "High" ↔ 1 / 2 ≤ fusedScore v s f) ∧
    ((assess_fraud_risk v s f).risk_level = "Medium" ↔
      1 / 5 ≤ fusedScore v s f ∧ fusedScore v s f < 1 / 2) ∧
    ((assess_fraud_risk v s f).risk_level = "Low" ↔
      1 / 20 ≤ fusedScore v s f ∧ fusedScore v s f < 1 / 5) ∧
    ((assess_fraud_risk v s f).risk_level = "Minimal" ↔ fusedScore v s f < 1 / 20) ∧
    (assess_fraud_risk vBoundary sBoundary fBoundary).risk_score = 1 ∧
    (assess_fraud_risk vBoundary sBoundary fBoundary).risk_level = "High" := by
  have hlevel : (assess_fraud_risk v s f).risk_level = riskLevelStr (fusedScore v s f) := rfl
  refine ⟨rfl, rfl, ?_, ?_, ?_, ?_, by decide, by decide⟩ <;>
    rw [hlevel] <;> unfold riskLevelStr <;>
      split_ifs with h1 h2 h3 <;>
        constructor <;> intro hx <;>
          first
            | rfl
            | linarith
            | exact absurd hx (by decide)
            | (exact ⟨by linarith, by linarith⟩)

end BankKYB
